import Mathlib

/-!
Shallow embedding of the CppMicroServices core pieces relevant to the
BundleContext / ServiceObjects / tracker-latch claims:

* `src/framework/src/bundle/BundleContext.cpp`
* `src/framework/src/service/ServiceObjects.cpp`
* `src/framework/include/cppmicroservices/detail/TrackedBundle.h`

C++ shared pointers are modelled by `Option` values carrying an identity
(`ptr` fields); exceptions by `Except Err`; side effects on the core
context by explicit `World` passing with an event log.
-/

namespace CppMS

/-- Errors thrown by the embedded operations.  `contextInvalid` stands for
`std::runtime_error("The bundle context is no longer valid")`. -/
inductive Err where
  | contextInvalid
  | invalidArgument (msg : String)
deriving DecidableEq, Repr

/-- The pointee of `BundlePrivate` shared pointers: bundle id and the
`bundleDir` data-directory root used by `GetDataFile`. -/
structure BundlePrivate where
  id : Nat
  bundleDir : String
deriving DecidableEq, Repr

/-- The pointee of a `BundleContextPrivate` shared pointer.  `ptr` is the
object identity (the address compared by shared_ptr `==` / `<`); `valid`
models `IsValid()`; `bundle` is the result of locking the weak back
pointer to the owning `BundlePrivate` (`none` when expired). -/
structure BundleContextPrivate where
  ptr : Nat
  valid : Bool
  bundle : Option BundlePrivate
deriving DecidableEq, Repr

/-- Modelled from the spec: `BundleContextPrivate::CheckValid` (the class is
not part of the embedded sources) throws the "context no longer valid"
error when the context has been invalidated by bundle stop. -/
def BundleContextPrivate.CheckValid (d : BundleContextPrivate) : Except Err Unit :=
  if d.valid then .ok () else .error .contextInvalid

/-- `cppmicroservices::BundleContext`: a possibly-null shared pointer to a
`BundleContextPrivate` (null after default construction or `= nullptr`). -/
structure BundleContext where
  d : Option BundleContextPrivate
deriving DecidableEq, Repr

/-- `BundleContext::operator bool`: `d && d->IsValid()`. -/
def BundleContext.isValid (c : BundleContext) : Bool :=
  match c.d with
  | none => false
  | some p => p.valid

/-- `GetAndCheckBundlePrivate` (BundleContext.cpp, lines 44-53): lock the
weak bundle pointer, throwing the "context no longer valid" error when it
has expired. -/
def GetAndCheckBundlePrivate (d : BundleContextPrivate) : Except Err BundlePrivate :=
  match d.bundle with
  | none => .error .contextInvalid
  | some b => .ok b

/-- `BundleContext::operator==` (BundleContext.cpp, lines 62-65):
`*this ? (rhs ? d == rhs.d : false) : !rhs`.  Pointer equality of the two
shared pointers is equality of the pointed-to objects. -/
def BundleContext.beq (l r : BundleContext) : Bool :=
  if l.isValid then (if r.isValid then decide (l.d = r.d) else false)
  else !r.isValid

/-- `BundleContext::operator!=`: `!(*this == rhs)`. -/
def BundleContext.bne (l r : BundleContext) : Bool :=
  !(BundleContext.beq l r)

/-- Pointer ordering of two `BundleContextPrivate` shared pointers (address
comparison); a null pointer precedes every object. -/
def ptrLt : Option BundleContextPrivate → Option BundleContextPrivate → Bool
  | none, none => false
  | none, some _ => true
  | some _, none => false
  | some a, some b => decide (a.ptr < b.ptr)

/-- `BundleContext::operator<` (BundleContext.cpp, lines 72-75):
`*this ? (rhs ? (d < rhs.d) : true) : false`. -/
def BundleContext.blt (l r : BundleContext) : Bool :=
  if l.isValid then (if r.isValid then ptrLt l.d r.d else true) else false

/-- A service reference (`ServiceReferenceBase`).  `valid` is
`operator bool` (false for a default-constructed reference); `regId` the
underlying registration's service id; `scope` the value of the
`service.scope` property; `registered` whether the registration is still
REGISTERED (false once `Unregister` completed); `sharedId` the identity of
the shared (singleton / bundle scope) instance and its interface map. -/
structure ServiceReferenceBase where
  valid : Bool
  regId : Nat
  scope : String
  registered : Bool
  sharedId : Nat
deriving DecidableEq, Repr

/-- `Constants::SCOPE_PROTOTYPE`. -/
def SCOPE_PROTOTYPE : String := "prototype"

/-- A bundle handle as returned by `MakeBundle`: `none` is an invalid
bundle (null `BundlePrivate`), `some i` the bundle with id `i`. -/
abbrev Bundle := Option Nat

/-- A record in the bundle registry. -/
structure BRec where
  id : Nat
  location : String
deriving DecidableEq, Repr

/-- Calls made into the core context (service registry, listener tables,
bundle registry) by the embedded operations, newest first. -/
inductive Event where
  | getService (bundle : Option Nat) (ref : Nat)
  | getServiceInterfaceMap (bundle : Option Nat) (ref : Nat)
  | getPrototypeService (bundle : Option Nat) (ref : Nat)
  | ungetService (bundle : Option Nat) (checked : Bool) (ref : Nat)
  | ungetPrototypeService (bundle : Option Nat) (map : Nat) (ref : Nat)
  | registerService
  | addServiceListener
  | removeServiceListener
  | addBundleListener
  | removeBundleListener
  | addFrameworkListener
  | removeFrameworkListener
  | removeListener
  | installBundles (location : String)
deriving DecidableEq, Repr

/-- The ambient state reachable through `b->coreCtx`: framework
properties, the bundle registry, the set of bundle ids hidden by the
registered bundle hooks, the service registry contents, the host
filesystem (existing paths), fresh-id counters and the call log. -/
structure World where
  coreProps : List (String × String)
  bundles : List BRec
  hookHides : List Nat
  serviceRefs : List ServiceReferenceBase
  fs : List String
  nextServiceId : Nat
  nextToken : Nat
  nextBundleId : Nat
  nextInstance : Nat
  events : List Event
deriving DecidableEq, Repr

/-- `Any` values returned by `GetProperty`: `none` is the empty `Any()`. -/
abbrev Any := Option String

/-- Lookup in the framework property map. -/
def lookupProp (ps : List (String × String)) (key : String) : Any :=
  (ps.find? (fun p => p.1 == key)).map (fun p => p.2)

/-- The guard prologue repeated verbatim at the top of every
`BundleContext` member function (BundleContext.cpp):
`if (!d) throw std::runtime_error(...); d->CheckValid();
auto b = GetAndCheckBundlePrivate(d);` followed by the member body. -/
def withCtx {α : Type} (c : BundleContext)
    (body : BundlePrivate → World → Except Err (α × World)) (w : World) :
    Except Err (α × World) :=
  match c.d with
  | none => .error .contextInvalid
  | some dd =>
    match dd.CheckValid with
    | .error e => .error e
    | .ok _ =>
      match GetAndCheckBundlePrivate dd with
      | .error e => .error e
      | .ok b => body b w

/-- `BundleContext::GetProperty(key)`: framework property lookup. -/
def BundleContext.GetProperty (c : BundleContext) (key : String) (w : World) :
    Except Err (Any × World) :=
  withCtx c (fun _b w => .ok (lookupProp w.coreProps key, w)) w

/-- `BundleContext::GetProperties()`: the whole framework property map. -/
def BundleContext.GetProperties (c : BundleContext) (w : World) :
    Except Err (List (String × String) × World) :=
  withCtx c (fun _b w => .ok (w.coreProps, w)) w

/-- `BundleContext::GetBundle()`: `MakeBundle(b)` on the context's own
bundle. -/
def BundleContext.GetBundle (c : BundleContext) (w : World) :
    Except Err (Bundle × World) :=
  withCtx c (fun b w => .ok (some b.id, w)) w

/-- Lookup in the bundle registry (`BundleRegistry::GetBundle(id)`),
wrapped in `MakeBundle` (null pointer gives an invalid bundle). -/
def registryGetBundle (bs : List BRec) (i : Nat) : Bundle :=
  (bs.find? (fun r => r.id == i)).map (fun r => r.id)

/-- Modelled from the spec: `BundleHooks::FilterBundle` (the hooks class is
not part of the embedded sources) lets bundle hooks hide a single bundle:
a hidden id is replaced by the invalid bundle. -/
def FilterBundle (hides : List Nat) (bu : Bundle) : Bundle :=
  match bu with
  | none => none
  | some i => if hides.contains i then none else some i

/-- Modelled from the spec: `BundleHooks::FilterBundles` removes the
hook-hidden bundles from the list handed back to the caller. -/
def FilterBundles (hides : List Nat) (bs : List Bundle) : List Bundle :=
  bs.filter (fun bu =>
    match bu with
    | none => true
    | some i => !hides.contains i)

/-- `BundleContext::GetBundle(id)` (BundleContext.cpp, lines 140-151):
registry lookup passed through `bundleHooks.FilterBundle`. -/
def BundleContext.GetBundleById (c : BundleContext) (i : Nat) (w : World) :
    Except Err (Bundle × World) :=
  withCtx c (fun _b w =>
    .ok (FilterBundle w.hookHides (registryGetBundle w.bundles i), w)) w

/-- `BundleContext::GetBundles(location)` (BundleContext.cpp, lines
153-167): `MakeBundle` over `bundleRegistry.GetBundles(location)`;
note that no bundle hook is consulted on this path. -/
def BundleContext.GetBundlesLoc (c : BundleContext) (loc : String) (w : World) :
    Except Err (List Bundle × World) :=
  withCtx c (fun _b w =>
    .ok ((w.bundles.filter (fun r => r.location == loc)).map (fun r => some r.id), w)) w

/-- `BundleContext::GetBundles()` (BundleContext.cpp, lines 169-184):
`MakeBundle` over the whole registry, then
`bundleHooks.FilterBundles(*this, bus)`. -/
def BundleContext.GetBundles (c : BundleContext) (w : World) :
    Except Err (List Bundle × World) :=
  withCtx c (fun _b w =>
    .ok (FilterBundles w.hookHides (w.bundles.map (fun r => some r.id)), w)) w

/-- `BundleContext::RegisterService`: delegates to
`coreCtx->services.RegisterService` (not part of the embedded sources),
which per the spec allocates a fresh service id and stores the
registration; here the delegation is logged and the fresh id returned. -/
def BundleContext.RegisterService (c : BundleContext) (_svc : List String)
    (_props : List (String × String)) (w : World) :
    Except Err (Nat × World) :=
  withCtx c (fun _b w =>
    .ok (w.nextServiceId,
      { w with nextServiceId := w.nextServiceId + 1,
               events := .registerService :: w.events })) w

/-- Modelled from the spec: `ServiceRegistry::Get(clazz, filter, ...)`
query (not part of the embedded sources); the query itself is kept
abstract — only the delegation matters for the context-validity claims. -/
def ServiceRegistry.Get (w : World) (_clazz _flt : String) :
    List ServiceReferenceBase :=
  w.serviceRefs

/-- `BundleContext::GetServiceReferences(clazz, filter)`. -/
def BundleContext.GetServiceReferences (c : BundleContext)
    (clazz flt : String) (w : World) :
    Except Err (List ServiceReferenceBase × World) :=
  withCtx c (fun _b w => .ok (ServiceRegistry.Get w clazz flt, w)) w

/-- `BundleContext::GetServiceReference(clazz)`. -/
def BundleContext.GetServiceReference (c : BundleContext) (clazz : String)
    (w : World) : Except Err (Option ServiceReferenceBase × World) :=
  withCtx c (fun _b w => .ok ((ServiceRegistry.Get w clazz "").head?, w)) w

/-- `BundleContext::AddServiceListener(delegate, filter)`: delegates to
the listener table (not part of the embedded sources); the spec says a
fresh monotonically assigned token is returned. -/
def BundleContext.AddServiceListener (c : BundleContext) (_delegate : Nat)
    (_flt : String) (w : World) : Except Err (Nat × World) :=
  withCtx c (fun _b w =>
    .ok (w.nextToken,
      { w with nextToken := w.nextToken + 1,
               events := .addServiceListener :: w.events })) w

/-- `BundleContext::RemoveServiceListener(delegate)`. -/
def BundleContext.RemoveServiceListener (c : BundleContext) (_delegate : Nat)
    (w : World) : Except Err (Unit × World) :=
  withCtx c (fun _b w =>
    .ok ((), { w with events := .removeServiceListener :: w.events })) w

/-- `BundleContext::AddBundleListener(delegate)`. -/
def BundleContext.AddBundleListener (c : BundleContext) (_delegate : Nat)
    (w : World) : Except Err (Nat × World) :=
  withCtx c (fun _b w =>
    .ok (w.nextToken,
      { w with nextToken := w.nextToken + 1,
               events := .addBundleListener :: w.events })) w

/-- `BundleContext::RemoveBundleListener(delegate)`. -/
def BundleContext.RemoveBundleListener (c : BundleContext) (_delegate : Nat)
    (w : World) : Except Err (Unit × World) :=
  withCtx c (fun _b w =>
    .ok ((), { w with events := .removeBundleListener :: w.events })) w

/-- `BundleContext::AddFrameworkListener(listener)`. -/
def BundleContext.AddFrameworkListener (c : BundleContext) (_listener : Nat)
    (w : World) : Except Err (Nat × World) :=
  withCtx c (fun _b w =>
    .ok (w.nextToken,
      { w with nextToken := w.nextToken + 1,
               events := .addFrameworkListener :: w.events })) w

/-- `BundleContext::RemoveFrameworkListener(listener)`. -/
def BundleContext.RemoveFrameworkListener (c : BundleContext) (_listener : Nat)
    (w : World) : Except Err (Unit × World) :=
  withCtx c (fun _b w =>
    .ok ((), { w with events := .removeFrameworkListener :: w.events })) w

/-- `BundleContext::AddServiceListener(delegate, data, filter)` (the
overload taking an owner pointer). -/
def BundleContext.AddServiceListenerData (c : BundleContext)
    (_delegate _data : Nat) (_flt : String) (w : World) :
    Except Err (Nat × World) :=
  withCtx c (fun _b w =>
    .ok (w.nextToken,
      { w with nextToken := w.nextToken + 1,
               events := .addServiceListener :: w.events })) w

/-- `BundleContext::RemoveServiceListener(delegate, data)`. -/
def BundleContext.RemoveServiceListenerData (c : BundleContext)
    (_delegate _data : Nat) (w : World) : Except Err (Unit × World) :=
  withCtx c (fun _b w =>
    .ok ((), { w with events := .removeServiceListener :: w.events })) w

/-- `BundleContext::AddBundleListener(delegate, data)`. -/
def BundleContext.AddBundleListenerData (c : BundleContext)
    (_delegate _data : Nat) (w : World) : Except Err (Nat × World) :=
  withCtx c (fun _b w =>
    .ok (w.nextToken,
      { w with nextToken := w.nextToken + 1,
               events := .addBundleListener :: w.events })) w

/-- `BundleContext::RemoveBundleListener(delegate, data)`. -/
def BundleContext.RemoveBundleListenerData (c : BundleContext)
    (_delegate _data : Nat) (w : World) : Except Err (Unit × World) :=
  withCtx c (fun _b w =>
    .ok ((), { w with events := .removeBundleListener :: w.events })) w

/-- `BundleContext::RemoveListener(token)`. -/
def BundleContext.RemoveListener (c : BundleContext) (_token : Nat)
    (w : World) : Except Err (Unit × World) :=
  withCtx c (fun _b w =>
    .ok ((), { w with events := .removeListener :: w.events })) w

/-- `util::DIR_SEP`. -/
def DIR_SEP : String := "/"

/-- `BundleContext::GetDataFile(filename)` (BundleContext.cpp, lines
454-471): when the bundle has a data root it is created on first use
(`util::Exists` / `util::MakePath`, modelled on the path list `w.fs`) and
the rooted file name is returned; with no data root the empty string is
returned and nothing is touched. -/
def BundleContext.GetDataFile (c : BundleContext) (filename : String)
    (w : World) : Except Err (String × World) :=
  withCtx c (fun b w =>
    let dataRoot := b.bundleDir
    if dataRoot ≠ "" then
      let w' := if w.fs.contains dataRoot then w
                else { w with fs := dataRoot :: w.fs }
      .ok (dataRoot ++ DIR_SEP ++ filename, w')
    else
      .ok ("", w)) w

/-- `BundleContext::InstallBundles(location, manifest)`: delegates to
`bundleRegistry.Install` (not part of the embedded sources), which per
the spec installs a bundle at the location and returns it. -/
def BundleContext.InstallBundles (c : BundleContext) (location : String)
    (_manifest : List (String × String)) (w : World) :
    Except Err (List Bundle × World) :=
  withCtx c (fun _b w =>
    .ok ([some w.nextBundleId],
      { w with bundles := ⟨w.nextBundleId, location⟩ :: w.bundles,
               nextBundleId := w.nextBundleId + 1,
               events := .installBundles location :: w.events })) w

/-- Modelled from the spec: `ServiceReferenceBasePrivate::GetService`
(not part of the embedded sources) — the scope-aware shared get; it
returns the shared instance and bumps the use count while the
registration is REGISTERED, and null once it is unregistered or the
factory failed. -/
def ServiceReferenceBasePrivate.GetService (ref : ServiceReferenceBase)
    (bundle : Option Nat) (w : World) : Option Nat × World :=
  if ref.registered then
    (some ref.sharedId, { w with events := .getService bundle ref.regId :: w.events })
  else (none, w)

/-- Modelled from the spec: `ServiceReferenceBasePrivate::GetServiceInterfaceMap`
(not part of the embedded sources) — as above but returning the shared
interface map instead of a single interface pointer. -/
def ServiceReferenceBasePrivate.GetServiceInterfaceMap
    (ref : ServiceReferenceBase) (bundle : Option Nat) (w : World) :
    Option Nat × World :=
  if ref.registered then
    (some ref.sharedId,
     { w with events := .getServiceInterfaceMap bundle ref.regId :: w.events })
  else (none, w)

/-- Modelled from the spec: `ServiceReferenceBasePrivate::GetPrototypeService`
(not part of the embedded sources) — every prototype get invokes the
factory and yields a fresh instance with its own use slot; null once the
registration is unregistered or the factory failed. -/
def ServiceReferenceBasePrivate.GetPrototypeService
    (ref : ServiceReferenceBase) (bundle : Option Nat) (w : World) :
    Option Nat × World :=
  if ref.registered then
    (some w.nextInstance,
     { w with nextInstance := w.nextInstance + 1,
              events := .getPrototypeService bundle ref.regId :: w.events })
  else (none, w)

/-- The `ServiceHolder` helper (BundleContext.cpp, lines 237-269): weak
bundle pointer, the reference, and the gotten service pointer.  The `b`
field holds the result of locking the weak pointer at destruction time. -/
structure ServiceHolder where
  b : Option Nat
  sref : ServiceReferenceBase
  service : Option Nat
deriving DecidableEq, Repr

/-- The registry calls made by `ServiceHolder::~ServiceHolder`:
`sref.d.load()->UngetService(b.lock(), true)` — one checked unget. -/
def ServiceHolder.dtorEvents (h : ServiceHolder) : List Event :=
  [.ungetService h.b true h.sref.regId]

/-- Modelled from the spec: a shared-ownership handle as produced by the
`std::shared_ptr` aliasing constructor — a payload pointer plus the
registry calls its deleter performs when the last copy is dropped. -/
structure SharedHandle where
  payload : Option Nat
  destroy : List Event
deriving DecidableEq, Repr

/-- Modelled from the spec: dropping one `std::shared_ptr` copy runs the
deleter exactly when the reference count reaches zero. -/
def dropOne (count : Nat) (destroy : List Event) : List Event :=
  if count == 1 then destroy else []

/-- Registry calls emitted while dropping `n` copies of a handle whose
reference count is `n`. -/
def dropAll : Nat → List Event → List Event
  | 0, _ => []
  | n + 1, destroy => dropOne (n + 1) destroy ++ dropAll n destroy

/-- `BundleContext::GetService(const ServiceReferenceBase&)`
(BundleContext.cpp, lines 271-289): invalid-reference check first, then
the context guard, then the scope-aware get wrapped in a `ServiceHolder`
whose destructor performs the checked unget. -/
def BundleContext.GetService (c : BundleContext)
    (reference : ServiceReferenceBase) (w : World) :
    Except Err (SharedHandle × World) :=
  if !reference.valid then
    .error (.invalidArgument
      "Default constructed ServiceReference is not a valid input to GetService()")
  else
    withCtx c (fun b w =>
      let gs := ServiceReferenceBasePrivate.GetService reference (some b.id) w
      let h : ServiceHolder := ⟨some b.id, reference, gs.1⟩
      .ok ({ payload := gs.1, destroy := ServiceHolder.dtorEvents h }, gs.2)) w

/-- `BundleContext::GetService(const ServiceReferenceU&)`
(BundleContext.cpp, lines 291-311): as above but returning the interface
map through the same `ServiceHolder` aliasing scheme. -/
def BundleContext.GetServiceU (c : BundleContext)
    (reference : ServiceReferenceBase) (w : World) :
    Except Err (SharedHandle × World) :=
  if !reference.valid then
    .error (.invalidArgument
      "Default constructed ServiceReference is not a valid input to GetService()")
  else
    withCtx c (fun b w =>
      let gs := ServiceReferenceBasePrivate.GetServiceInterfaceMap reference (some b.id) w
      let h : ServiceHolder := ⟨some b.id, reference, gs.1⟩
      .ok ({ payload := gs.1, destroy := ServiceHolder.dtorEvents h }, gs.2)) w

/-- `ServiceObjectsBasePrivate` (ServiceObjects.cpp, lines 40-70): the
bundle context (non-null shared pointer) and the reference handed to the
`ServiceObjects` instance. -/
structure ServiceObjectsBasePrivate where
  m_context : BundleContextPrivate
  m_reference : ServiceReferenceBase
deriving DecidableEq, Repr

/-- `ServiceObjectsBasePrivate::GetServiceInterfaceMap` (ServiceObjects.cpp,
lines 52-69): reads the reference's `service.scope` property; on
`prototype` the instance comes from `GetPrototypeService`, otherwise from
the shared `GetServiceInterfaceMap`; both paths go through
`MakeBundleContext(m_context).GetBundle()`, which rethrows the context
guard errors. -/
def ServiceObjectsBasePrivate.GetServiceInterfaceMap
    (p : ServiceObjectsBasePrivate) (w : World) :
    Except Err (Option Nat × World) :=
  if p.m_reference.scope == SCOPE_PROTOTYPE then
    match BundleContext.GetBundle ⟨some p.m_context⟩ w with
    | .error e => .error e
    | .ok (bu, w₁) =>
      .ok (ServiceReferenceBasePrivate.GetPrototypeService p.m_reference bu w₁)
  else
    match BundleContext.GetBundle ⟨some p.m_context⟩ w with
    | .error e => .error e
    | .ok (bu, w₁) =>
      .ok (ServiceReferenceBasePrivate.GetServiceInterfaceMap p.m_reference bu w₁)

/-- The `UngetHelper` struct (ServiceObjects.cpp, lines 91-132): the
interface map handed out, the reference, and the weak bundle pointer.
The `b` field holds the result of locking the weak pointer at
destruction time. -/
structure UngetHelper where
  interfaceMap : Nat
  sref : ServiceReferenceBase
  b : Option Nat
deriving DecidableEq, Repr

/-- The registry calls made by `UngetHelper::~UngetHelper`: nothing when
the reference is invalid; the prototype unget on the stored interface map
when `service.scope` is `prototype`; the checked shared unget
otherwise. -/
def UngetHelper.dtorEvents (h : UngetHelper) : List Event :=
  if h.sref.valid then
    if h.sref.scope == SCOPE_PROTOTYPE then
      [.ungetPrototypeService h.b h.interfaceMap h.sref.regId]
    else
      [.ungetService h.b true h.sref.regId]
  else []

/-- Outcome of running a destructor body: whether an exception escaped
and whether the failure was logged through `DIAG_LOG`. -/
structure DtorOutcome where
  threw : Bool
  logged : Bool
deriving DecidableEq, Repr

/-- An underlying unget call that may raise: `throws` is whether the call
raised an exception (arbitrary user/registry failure). -/
def tryUnget (throws : Bool) : Except Unit Unit :=
  if throws then .error () else .ok ()

/-- `UngetHelper::~UngetHelper` (ServiceObjects.cpp, lines 104-131): the
unget (performed only when `sref` is valid) is wrapped in try/catch; a
caught exception is logged only when the weak bundle pointer is still
alive, and is never rethrown. -/
def UngetHelper.dtor (h : UngetHelper) (ungetThrows : Bool) : DtorOutcome :=
  if h.sref.valid then
    match tryUnget ungetThrows with
    | .ok _ => { threw := false, logged := false }
    | .error _ => { threw := false, logged := h.b.isSome }
  else { threw := false, logged := false }

/-- `ServiceHolder::~ServiceHolder` (BundleContext.cpp, lines 252-268):
the checked unget wrapped in try/catch; a caught exception is logged only
when the weak bundle pointer is still alive, and is never rethrown. -/
def ServiceHolder.dtor (h : ServiceHolder) (ungetThrows : Bool) : DtorOutcome :=
  match tryUnget ungetThrows with
  | .ok _ => { threw := false, logged := false }
  | .error _ => { threw := false, logged := h.b.isSome }

/-- `ServiceObjectsBase::GetService` (ServiceObjects.cpp, lines 134-156):
invalid reference → null; null interface map (unregistered registration
or throwing factory) → null; expired context bundle → null; otherwise an
aliased shared pointer whose `UngetHelper` performs the scope-matching
unget on destruction. -/
def ServiceObjectsBase.GetService (sob : ServiceObjectsBasePrivate)
    (w : World) : Except Err (Option SharedHandle × World) :=
  if !sob.m_reference.valid then .ok (none, w)
  else
    match sob.GetServiceInterfaceMap w with
    | .error e => .error e
    | .ok (none, w₁) => .ok (none, w₁)
    | .ok (some im, w₁) =>
      match sob.m_context.bundle with
      | none => .ok (none, w₁)
      | some bp =>
        let h : UngetHelper := ⟨im, sob.m_reference, some bp.id⟩
        .ok (some { payload := some im, destroy := UngetHelper.dtorEvents h }, w₁)

/-- `ServiceObjectsBase::GetServiceInterfaceMap` (ServiceObjects.cpp,
lines 158-181): as `GetService` but handing out a copy-constructed
interface map (a fresh map object) through the same `UngetHelper`
aliasing scheme. -/
def ServiceObjectsBase.GetServiceInterfaceMapPub
    (sob : ServiceObjectsBasePrivate) (w : World) :
    Except Err (Option SharedHandle × World) :=
  if !sob.m_reference.valid then .ok (none, w)
  else
    match sob.GetServiceInterfaceMap w with
    | .error e => .error e
    | .ok (none, w₁) => .ok (none, w₁)
    | .ok (some _im, w₁) =>
      let result := w₁.nextInstance
      let w₂ := { w₁ with nextInstance := w₁.nextInstance + 1 }
      match sob.m_context.bundle with
      | none => .ok (none, w₂)
      | some bp =>
        let h : UngetHelper := ⟨result, sob.m_reference, some bp.id⟩
        .ok (some { payload := some result, destroy := UngetHelper.dtorEvents h }, w₂)

/-- Events on a tracker's counter latch: a customizer call entering
(`countUp`), a customizer call completing (`countDown`), and a blocked
waiter (`Close` / `WaitForCustomizersToFinish`) returning
(`waitReturn`). -/
inductive LatchEv where
  | countUp
  | countDown
  | waitReturn
deriving DecidableEq, Repr

/-- Modelled from the spec: the `CounterLatch` used by `TrackedBundle`
(TrackedBundle.h declares the latch; its implementation is not part of
the embedded sources).  It counts in-flight customizer calls and `Wait`
blocks until the counter drains to zero, so in a run of the latch a
`waitReturn` step is enabled only at count zero; `countDown` without a
matching `countUp` is impossible. -/
def latchRun : Nat → List LatchEv → Option Nat
  | c, [] => some c
  | c, .countUp :: rest => latchRun (c + 1) rest
  | c, .countDown :: rest => if c == 0 then none else latchRun (c - 1) rest
  | c, .waitReturn :: rest => if c == 0 then latchRun 0 rest else none

/-- Number of customizer-entry events in a latch trace. -/
def upCount : List LatchEv → Nat
  | [] => 0
  | .countUp :: rest => upCount rest + 1
  | _ :: rest => upCount rest

/-- Number of customizer-completion events in a latch trace. -/
def downCount : List LatchEv → Nat
  | [] => 0
  | .countDown :: rest => downCount rest + 1
  | _ :: rest => downCount rest

/-- A bundle context that is default-constructed (null `d`) or has been
invalidated by bundle stop. -/
def BundleContext.invalidCtx (c : BundleContext) : Bool :=
  match c.d with
  | none => true
  | some dd => !dd.valid

theorem withCtx_invalid {α : Type} (c : BundleContext)
    (f : BundlePrivate → World → Except Err (α × World)) (w : World)
    (hc : c.invalidCtx = true) :
    withCtx c f w = .error .contextInvalid := by
  obtain ⟨d⟩ := c
  cases d with
  | none => rfl
  | some dd =>
    simp only [BundleContext.invalidCtx, Bool.not_eq_true'] at hc
    simp [withCtx, BundleContextPrivate.CheckValid, hc]

theorem withCtx_ok {α : Type} {c : BundleContext}
    {f : BundlePrivate → World → Except Err (α × World)} {w : World}
    {r : α × World} (h : withCtx c f w = .ok r) :
    ∃ dd b, c.d = some dd ∧ dd.valid = true ∧ dd.bundle = some b ∧
      f b w = .ok r := by
  obtain ⟨d⟩ := c
  cases d with
  | none => simp [withCtx] at h
  | some dd =>
    cases hv : dd.valid with
    | false => simp [withCtx, BundleContextPrivate.CheckValid, hv] at h
    | true =>
      cases hb : dd.bundle with
      | none =>
        simp [withCtx, BundleContextPrivate.CheckValid, hv,
              GetAndCheckBundlePrivate, hb] at h
      | some b =>
        refine ⟨dd, b, rfl, hv, hb, ?_⟩
        simpa [withCtx, BundleContextPrivate.CheckValid, hv,
               GetAndCheckBundlePrivate, hb] using h

theorem withCtx_eq {α : Type} (c : BundleContext)
    (f : BundlePrivate → World → Except Err (α × World)) (w : World)
    {dd : BundleContextPrivate} {b : BundlePrivate}
    (hd : c.d = some dd) (hv : dd.valid = true) (hb : dd.bundle = some b) :
    withCtx c f w = f b w := by
  simp [withCtx, hd, BundleContextPrivate.CheckValid, hv,
        GetAndCheckBundlePrivate, hb]

/-- C1: every public BundleContext operation (GetProperty, GetProperties,
GetBundle / GetBundles in all overloads, RegisterService,
GetServiceReference(s), GetService on a valid reference, every
Add/Remove-listener overload, GetDataFile, InstallBundles) called on a
default-constructed or stop-invalidated context fails with the "context
no longer valid" error and performs no other action (no result, no world
change is produced). -/
theorem c1_invalid_context_guard (c : BundleContext) (w : World)
    (hc : c.invalidCtx = true) :
    (∀ key, c.GetProperty key w = .error .contextInvalid) ∧
    c.GetProperties w = .error .contextInvalid ∧
    c.GetBundle w = .error .contextInvalid ∧
    (∀ i, c.GetBundleById i w = .error .contextInvalid) ∧
    (∀ loc, c.GetBundlesLoc loc w = .error .contextInvalid) ∧
    c.GetBundles w = .error .contextInvalid ∧
    (∀ svc props, c.RegisterService svc props w = .error .contextInvalid) ∧
    (∀ clazz flt, c.GetServiceReferences clazz flt w = .error .contextInvalid) ∧
    (∀ clazz, c.GetServiceReference clazz w = .error .contextInvalid) ∧
    (∀ ref, ref.valid = true → c.GetService ref w = .error .contextInvalid) ∧
    (∀ ref, ref.valid = true → c.GetServiceU ref w = .error .contextInvalid) ∧
    (∀ l flt, c.AddServiceListener l flt w = .error .contextInvalid) ∧
    (∀ l, c.RemoveServiceListener l w = .error .contextInvalid) ∧
    (∀ l, c.AddBundleListener l w = .error .contextInvalid) ∧
    (∀ l, c.RemoveBundleListener l w = .error .contextInvalid) ∧
    (∀ l, c.AddFrameworkListener l w = .error .contextInvalid) ∧
    (∀ l, c.RemoveFrameworkListener l w = .error .contextInvalid) ∧
    (∀ l dt flt, c.AddServiceListenerData l dt flt w = .error .contextInvalid) ∧
    (∀ l dt, c.RemoveServiceListenerData l dt w = .error .contextInvalid) ∧
    (∀ l dt, c.AddBundleListenerData l dt w = .error .contextInvalid) ∧
    (∀ l dt, c.RemoveBundleListenerData l dt w = .error .contextInvalid) ∧
    (∀ tok, c.RemoveListener tok w = .error .contextInvalid) ∧
    (∀ fn, c.GetDataFile fn w = .error .contextInvalid) ∧
    (∀ loc mf, c.InstallBundles loc mf w = .error .contextInvalid) := by
  refine ⟨fun _ => withCtx_invalid c _ w hc, withCtx_invalid c _ w hc,
    withCtx_invalid c _ w hc, fun _ => withCtx_invalid c _ w hc,
    fun _ => withCtx_invalid c _ w hc, withCtx_invalid c _ w hc,
    fun _ _ => withCtx_invalid c _ w hc, fun _ _ => withCtx_invalid c _ w hc,
    fun _ => withCtx_invalid c _ w hc, fun ref href => ?_, fun ref href => ?_,
    fun _ _ => withCtx_invalid c _ w hc, fun _ => withCtx_invalid c _ w hc,
    fun _ => withCtx_invalid c _ w hc, fun _ => withCtx_invalid c _ w hc,
    fun _ => withCtx_invalid c _ w hc, fun _ => withCtx_invalid c _ w hc,
    fun _ _ _ => withCtx_invalid c _ w hc, fun _ _ => withCtx_invalid c _ w hc,
    fun _ _ => withCtx_invalid c _ w hc, fun _ _ => withCtx_invalid c _ w hc,
    fun _ => withCtx_invalid c _ w hc, fun _ => withCtx_invalid c _ w hc,
    fun _ _ => withCtx_invalid c _ w hc⟩
  · rw [BundleContext.GetService, href, if_neg (by decide)]
    exact withCtx_invalid c _ w hc
  · rw [BundleContext.GetServiceU, href, if_neg (by decide)]
    exact withCtx_invalid c _ w hc

/-- An empty example world. -/
def w0 : World :=
  { coreProps := [], bundles := [], hookHides := [], serviceRefs := [],
    fs := [], nextServiceId := 0, nextToken := 0, nextBundleId := 0,
    nextInstance := 0, events := [] }

/-- An example valid, registered, bundle-scope service reference. -/
def refEx : ServiceReferenceBase :=
  { valid := true, regId := 7, scope := "bundle", registered := true,
    sharedId := 42 }

/-- Witness for C1 at a default-constructed context. -/
theorem c1_invalid_context_guard_witness :
    BundleContext.GetProperties ⟨none⟩ w0 = .error .contextInvalid ∧
    BundleContext.GetService ⟨none⟩ refEx w0 = .error .contextInvalid := by
  have h := c1_invalid_context_guard ⟨none⟩ w0 (by decide)
  exact ⟨h.2.1, h.2.2.2.2.2.2.2.2.2.1 refEx (by decide)⟩

/-- C3: on any bundle context (valid or not), both GetService overloads
reject a default-constructed (invalid) service reference with the
invalid-argument error, before any context check or registry call. -/
theorem c3_invalid_reference (c : BundleContext)
    (reference : ServiceReferenceBase) (w : World)
    (h : reference.valid = false) :
    c.GetService reference w = .error (.invalidArgument
      "Default constructed ServiceReference is not a valid input to GetService()") ∧
    c.GetServiceU reference w = .error (.invalidArgument
      "Default constructed ServiceReference is not a valid input to GetService()") := by
  constructor
  · rw [BundleContext.GetService, h, if_pos (by decide)]
  · rw [BundleContext.GetServiceU, h, if_pos (by decide)]

/-- An example valid context whose bundle is alive with a data root. -/
def ctxEx : BundleContext :=
  ⟨some { ptr := 0, valid := true, bundle := some { id := 3, bundleDir := "data" } }⟩

/-- An example default-constructed (invalid) service reference. -/
def refInvalidEx : ServiceReferenceBase :=
  { valid := false, regId := 0, scope := "", registered := false, sharedId := 0 }

/-- Witness for C3 on a valid context. -/
theorem c3_invalid_reference_witness :
    BundleContext.GetService ctxEx refInvalidEx w0 = .error (.invalidArgument
      "Default constructed ServiceReference is not a valid input to GetService()") :=
  (c3_invalid_reference ctxEx refInvalidEx w0 (by decide)).1

/-- C9: GetDataFile on a valid context (bundle alive) returns the file
name rooted in the bundle's data directory, creating the directory first
when it does not exist yet; with no configured data root it returns the
empty string and leaves the filesystem untouched. -/
theorem c9_get_data_file (c : BundleContext) (dd : BundleContextPrivate)
    (b : BundlePrivate) (fn : String) (w : World)
    (hd : c.d = some dd) (hv : dd.valid = true) (hb : dd.bundle = some b) :
    (b.bundleDir ≠ "" →
      c.GetDataFile fn w = .ok (b.bundleDir ++ DIR_SEP ++ fn,
        if w.fs.contains b.bundleDir then w
        else { w with fs := b.bundleDir :: w.fs })) ∧
    (b.bundleDir = "" → c.GetDataFile fn w = .ok ("", w)) := by
  constructor
  · intro hne
    rw [BundleContext.GetDataFile, withCtx_eq c _ w hd hv hb]
    exact if_pos hne
  · intro hz
    rw [BundleContext.GetDataFile, withCtx_eq c _ w hd hv hb]
    simp [hz]

/-- Witness for C9: first request creates the missing data directory. -/
theorem c9_get_data_file_witness :
    BundleContext.GetDataFile ctxEx "f.txt" w0 =
      .ok ("data" ++ DIR_SEP ++ "f.txt",
        if w0.fs.contains "data" then w0
        else { w0 with fs := "data" :: w0.fs }) :=
  (c9_get_data_file ctxEx _ _ "f.txt" w0 rfl rfl rfl).1 (by decide)

theorem dropAll_pos (d : List Event) (n : Nat) (hn : 1 ≤ n) :
    dropAll n d = d := by
  induction n with
  | zero => exact absurd hn (by omega)
  | succ m ih =>
    cases m with
    | zero => simp [dropAll, dropOne]
    | succ k =>
      have hne : ((k + 1 + 1) == 1) = false :=
        beq_eq_false_iff_ne.mpr (by omega)
      show dropOne (k + 1 + 1) d ++ dropAll (k + 1) d = d
      rw [show dropOne (k + 1 + 1) d = [] from by simp [dropOne, hne],
          List.nil_append, ih (by omega)]

/-- C2: a successful `BundleContext::GetService` hands back a
shared-ownership handle whose deleter performs exactly one matching
checked unget; dropping all `n ≥ 1` copies of the handle emits that one
unget exactly once, with no action from the consumer. -/
theorem c2_scoped_get_unget (c : BundleContext)
    (reference : ServiceReferenceBase) (w w' : World) (h : SharedHandle)
    (n : Nat) (hok : c.GetService reference w = .ok (h, w')) (hn : 1 ≤ n) :
    (∃ bu, h.destroy = [Event.ungetService bu true reference.regId]) ∧
    dropAll n h.destroy = h.destroy := by
  refine ⟨?_, dropAll_pos _ n hn⟩
  rw [BundleContext.GetService] at hok
  cases hv : reference.valid with
  | false =>
    rw [hv, if_pos (by decide)] at hok
    exact Except.noConfusion hok
  | true =>
    rw [hv, if_neg (by decide)] at hok
    obtain ⟨dd, b, hd, hvv, hb, hf⟩ := withCtx_ok hok
    simp only [ServiceHolder.dtorEvents, Except.ok.injEq, Prod.mk.injEq] at hf
    exact ⟨some b.id, by rw [← hf.1]⟩

/-- The world after the example shared get. -/
def w0ev : World := { w0 with events := [Event.getService (some 3) 7] }

/-- The handle produced by the example shared get. -/
def handleEx : SharedHandle :=
  { payload := some 42, destroy := [Event.ungetService (some 3) true 7] }

/-- Witness for C2: two copies of the example handle, dropped, perform
the single checked unget. -/
theorem c2_scoped_get_unget_witness :
    (∃ bu, handleEx.destroy = [Event.ungetService bu true refEx.regId]) ∧
    dropAll 2 handleEx.destroy = handleEx.destroy :=
  c2_scoped_get_unget ctxEx refEx w0 w0ev handleEx 2 rfl (by decide)

theorem getBundle_priv (p : BundleContextPrivate) (bp : BundlePrivate)
    (w : World) (hv : p.valid = true) (hb : p.bundle = some bp) :
    BundleContext.GetBundle ⟨some p⟩ w = .ok (some bp.id, w) := by
  rw [BundleContext.GetBundle, withCtx_eq ⟨some p⟩ _ w rfl hv hb]

theorem withCtx_noBundle {α : Type} (p : BundleContextPrivate)
    (f : BundlePrivate → World → Except Err (α × World)) (w : World)
    (hv : p.valid = true) (hb : p.bundle = none) :
    withCtx ⟨some p⟩ f w = .error .contextInvalid := by
  simp [withCtx, BundleContextPrivate.CheckValid, hv,
        GetAndCheckBundlePrivate, hb]

theorem sobPriv_ok {sob : ServiceObjectsBasePrivate} {w w₁ : World}
    {im : Nat}
    (hp : sob.GetServiceInterfaceMap w = .ok (some im, w₁)) :
    ∃ bp, sob.m_context.bundle = some bp ∧
      sob.m_reference.registered = true ∧
      (((sob.m_reference.scope == SCOPE_PROTOTYPE) = true ∧
        im = w.nextInstance ∧
        w₁ = { w with nextInstance := w.nextInstance + 1,
                      events := Event.getPrototypeService (some bp.id)
                        sob.m_reference.regId :: w.events }) ∨
       ((sob.m_reference.scope == SCOPE_PROTOTYPE) = false ∧
        im = sob.m_reference.sharedId ∧
        w₁ = { w with events := Event.getServiceInterfaceMap (some bp.id)
                        sob.m_reference.regId :: w.events })) := by
  rw [ServiceObjectsBasePrivate.GetServiceInterfaceMap] at hp
  cases hcv : sob.m_context.valid with
  | false =>
    have hgb : BundleContext.GetBundle ⟨some sob.m_context⟩ w =
        .error .contextInvalid := by
      rw [BundleContext.GetBundle]
      exact withCtx_invalid _ _ _ (by simp [BundleContext.invalidCtx, hcv])
    rw [hgb] at hp
    cases hscope : (sob.m_reference.scope == SCOPE_PROTOTYPE) with
    | true => rw [hscope] at hp; simp at hp
    | false => rw [hscope] at hp; simp at hp
  | true =>
    cases hcb : sob.m_context.bundle with
    | none =>
      have hgb : BundleContext.GetBundle ⟨some sob.m_context⟩ w =
          .error .contextInvalid := by
        rw [BundleContext.GetBundle]
        exact withCtx_noBundle _ _ _ hcv hcb
      rw [hgb] at hp
      cases hscope : (sob.m_reference.scope == SCOPE_PROTOTYPE) with
      | true => rw [hscope] at hp; simp at hp
      | false => rw [hscope] at hp; simp at hp
    | some bp =>
      rw [getBundle_priv sob.m_context bp w hcv hcb] at hp
      cases hscope : (sob.m_reference.scope == SCOPE_PROTOTYPE) with
      | true =>
        rw [hscope] at hp
        cases hreg : sob.m_reference.registered with
        | false =>
          simp [ServiceReferenceBasePrivate.GetPrototypeService, hreg] at hp
        | true =>
          simp [ServiceReferenceBasePrivate.GetPrototypeService, hreg] at hp
          exact ⟨bp, rfl, rfl, Or.inl ⟨rfl, hp.1.symm, hp.2.symm⟩⟩
      | false =>
        rw [hscope] at hp
        cases hreg : sob.m_reference.registered with
        | false =>
          simp [ServiceReferenceBasePrivate.GetServiceInterfaceMap, hreg] at hp
        | true =>
          simp [ServiceReferenceBasePrivate.GetServiceInterfaceMap, hreg] at hp
          exact ⟨bp, rfl, rfl, Or.inr ⟨rfl, hp.1.symm, hp.2.symm⟩⟩

/-- C4: for a successful `ServiceObjectsBase::GetService`: when the
reference's `service.scope` property is `prototype` the instance was
obtained through the prototype path (the factory called for this get)
and the handle's release performs the prototype unget on that same
instance, identified by its interface map; for any other scope the
shared path is used for both the get and the unget. -/
theorem c4_scope_dispatch (sob : ServiceObjectsBasePrivate) (w w' : World)
    (h : SharedHandle)
    (hok : ServiceObjectsBase.GetService sob w = .ok (some h, w')) :
    ((sob.m_reference.scope == SCOPE_PROTOTYPE) = true →
      ∃ bp im, h.payload = some im ∧
        w'.events = Event.getPrototypeService (some bp)
          sob.m_reference.regId :: w.events ∧
        h.destroy = [Event.ungetPrototypeService (some bp) im
          sob.m_reference.regId]) ∧
    ((sob.m_reference.scope == SCOPE_PROTOTYPE) = false →
      ∃ bp im, h.payload = some im ∧
        w'.events = Event.getServiceInterfaceMap (some bp)
          sob.m_reference.regId :: w.events ∧
        h.destroy = [Event.ungetService (some bp) true
          sob.m_reference.regId]) := by
  rw [ServiceObjectsBase.GetService] at hok
  cases hrv : sob.m_reference.valid with
  | false => rw [hrv, if_pos (by decide)] at hok; simp at hok
  | true =>
    rw [hrv, if_neg (by decide)] at hok
    cases hpm : sob.GetServiceInterfaceMap w with
    | error e => rw [hpm] at hok; exact Except.noConfusion hok
    | ok pr =>
      obtain ⟨imo, w₁⟩ := pr
      cases imo with
      | none => rw [hpm] at hok; simp at hok
      | some im =>
        obtain ⟨bp, hcb, hreg, hcase⟩ := sobPriv_ok hpm
        rw [hpm, hcb] at hok
        simp only [Except.ok.injEq, Prod.mk.injEq, Option.some.injEq] at hok
        obtain ⟨hh, hw⟩ := hok
        cases hcase with
        | inl hc =>
          obtain ⟨hsc, _him, hw1⟩ := hc
          refine ⟨fun _ => ⟨bp.id, im, ?_, ?_, ?_⟩,
            fun hns => absurd (hsc ▸ hns) (by decide)⟩
          · rw [← hh]
          · rw [← hw, hw1]
          · rw [← hh]
            simp [UngetHelper.dtorEvents, hrv, hsc]
        | inr hc =>
          obtain ⟨hsc, _him, hw1⟩ := hc
          refine ⟨fun hys => absurd (hsc ▸ hys) (by decide),
            fun _ => ⟨bp.id, im, ?_, ?_, ?_⟩⟩
          · rw [← hh]
          · rw [← hw, hw1]
          · rw [← hh]
            simp [UngetHelper.dtorEvents, hrv, hsc]

/-- The example context pointee: valid, bundle 3 alive. -/
def ctxPrivEx : BundleContextPrivate :=
  { ptr := 0, valid := true, bundle := some { id := 3, bundleDir := "data" } }

/-- An example valid, registered, prototype-scope reference. -/
def refProtoEx : ServiceReferenceBase :=
  { valid := true, regId := 9, scope := "prototype", registered := true,
    sharedId := 50 }

/-- Example ServiceObjects state for the prototype reference. -/
def sobProtoEx : ServiceObjectsBasePrivate :=
  { m_context := ctxPrivEx, m_reference := refProtoEx }

/-- The handle produced by the example prototype get. -/
def handleProtoEx : SharedHandle :=
  { payload := some 0, destroy := [Event.ungetPrototypeService (some 3) 0 9] }

/-- The world after the example prototype get. -/
def wProtoEx : World :=
  { w0 with nextInstance := 1,
            events := [Event.getPrototypeService (some 3) 9] }

/-- Witness for C4 on the prototype path. -/
theorem c4_scope_dispatch_witness :
    ∃ bp im, handleProtoEx.payload = some im ∧
      wProtoEx.events = Event.getPrototypeService (some bp)
        sobProtoEx.m_reference.regId :: w0.events ∧
      handleProtoEx.destroy = [Event.ungetPrototypeService (some bp) im
        sobProtoEx.m_reference.regId] :=
  (c4_scope_dispatch sobProtoEx w0 wProtoEx handleProtoEx rfl).1 (by decide)

/-- C5: once the registration behind a (valid) reference has completed
Unregister — or its instance is otherwise unavailable — every
`ServiceObjects` GetService / GetServiceInterfaceMap call on it returns
the unavailable indicator (null pointer / null map) with no error raised
and no registry call performed. -/
theorem c5_unregistered_null (sob : ServiceObjectsBasePrivate)
    (bp : BundlePrivate) (w : World)
    (hcv : sob.m_context.valid = true)
    (hcb : sob.m_context.bundle = some bp)
    (hrv : sob.m_reference.valid = true)
    (hreg : sob.m_reference.registered = false) :
    ServiceObjectsBase.GetService sob w = .ok (none, w) ∧
    ServiceObjectsBase.GetServiceInterfaceMapPub sob w = .ok (none, w) := by
  have hpriv : sob.GetServiceInterfaceMap w = .ok (none, w) := by
    rw [ServiceObjectsBasePrivate.GetServiceInterfaceMap,
        getBundle_priv sob.m_context bp w hcv hcb]
    cases hscope : (sob.m_reference.scope == SCOPE_PROTOTYPE) with
    | true =>
      simp [ServiceReferenceBasePrivate.GetPrototypeService, hreg]
    | false =>
      simp [ServiceReferenceBasePrivate.GetServiceInterfaceMap, hreg]
  constructor
  · rw [ServiceObjectsBase.GetService, hrv, if_neg (by decide), hpriv]
  · rw [ServiceObjectsBase.GetServiceInterfaceMapPub, hrv,
        if_neg (by decide), hpriv]

/-- An example valid reference whose registration has been
unregistered. -/
def refUnregEx : ServiceReferenceBase :=
  { valid := true, regId := 7, scope := "bundle", registered := false,
    sharedId := 42 }

/-- Example ServiceObjects state for the unregistered reference. -/
def sobUnregEx : ServiceObjectsBasePrivate :=
  { m_context := ctxPrivEx, m_reference := refUnregEx }

/-- Witness for C5. -/
theorem c5_unregistered_null_witness :
    ServiceObjectsBase.GetService sobUnregEx w0 = .ok (none, w0) :=
  (c5_unregistered_null sobUnregEx ⟨3, "data"⟩ w0 rfl rfl (by decide)
    (by decide)).1

/-- C6: neither service-handle destructor lets an exception escape: any
error raised by the underlying unget is caught and swallowed, and it is
logged exactly when the owning bundle still exists (and, for
`UngetHelper`, an unget was attempted at all). -/
theorem c6_dtor_no_throw (h : ServiceHolder) (uh : UngetHelper) (t : Bool) :
    (h.dtor t).threw = false ∧ (uh.dtor t).threw = false ∧
    (h.dtor t).logged = (t && h.b.isSome) ∧
    (uh.dtor t).logged = (uh.sref.valid && (t && uh.b.isSome)) := by
  cases t <;> cases hv : uh.sref.valid <;>
    simp [ServiceHolder.dtor, UngetHelper.dtor, tryUnget, hv]

/-- A world with one bundle at location "L" that the bundle hooks hide. -/
def w5 : World := { w0 with bundles := [⟨5, "L"⟩], hookHides := [5] }

/-- Counterexample to C7: `GetBundles(location)` returns the hook-hidden
bundle 5 — its result is not passed through the bundle hooks' filtering
(which would have removed it). -/
theorem c7_hooks_cex :
    BundleContext.GetBundlesLoc ctxEx "L" w5 = .ok ([some 5], w5) ∧
    w5.hookHides.contains 5 = true ∧
    FilterBundles w5.hookHides [some 5] = [] := by
  refine ⟨rfl, rfl, rfl⟩

/-- C7 (amended): on a valid context, `GetBundles()` and `GetBundle(id)`
pass their results through the registered bundle hooks' filtering (a
hook-hidden bundle never reaches the caller), but `GetBundles(location)`
returns the bundle registry's list for that location unfiltered,
independent of the hooks. -/
theorem c7_hooks_amended (c : BundleContext) (dd : BundleContextPrivate)
    (b : BundlePrivate) (w : World)
    (hd : c.d = some dd) (hv : dd.valid = true) (hb : dd.bundle = some b) :
    (∀ res w', c.GetBundles w = .ok (res, w') →
      ∀ i, w.hookHides.contains i = true → ¬ some i ∈ res) ∧
    (∀ i bu w', c.GetBundleById i w = .ok (bu, w') →
      ∀ j, w.hookHides.contains j = true → bu ≠ some j) ∧
    (∀ loc hides,
      c.GetBundlesLoc loc { w with hookHides := hides } =
        .ok ((w.bundles.filter (fun r => r.location == loc)).map
              (fun r => some r.id),
             { w with hookHides := hides })) := by
  refine ⟨?_, ?_, ?_⟩
  · intro res w' hok i hi hmem
    rw [BundleContext.GetBundles, withCtx_eq c _ w hd hv hb] at hok
    simp only [Except.ok.injEq, Prod.mk.injEq] at hok
    rw [← hok.1, FilterBundles] at hmem
    have hpred := (List.mem_filter.mp hmem).2
    simp at hpred hi
    exact hpred hi
  · intro i bu w' hok j hj hbuj
    rw [BundleContext.GetBundleById, withCtx_eq c _ w hd hv hb] at hok
    simp only [Except.ok.injEq, Prod.mk.injEq] at hok
    rw [hbuj] at hok
    have hfb := hok.1
    cases hr : registryGetBundle w.bundles i with
    | none => rw [hr] at hfb; simp [FilterBundle] at hfb
    | some k =>
      rw [hr] at hfb
      simp [FilterBundle] at hfb
      have hjm : j ∈ w.hookHides := by simpa using hj
      apply hfb.1
      rw [hfb.2]
      exact hjm
  · intro loc hides
    rw [BundleContext.GetBundlesLoc,
        withCtx_eq c _ { w with hookHides := hides } hd hv hb]

/-- Witness for the amended C7: the location overload on the example
world ignores the hook that hides bundle 5. -/
theorem c7_hooks_amended_witness :
    BundleContext.GetBundlesLoc ctxEx "L" { w5 with hookHides := [5] } =
      .ok ((w5.bundles.filter (fun r => r.location == "L")).map
            (fun r => some r.id),
           { w5 with hookHides := [5] }) :=
  (c7_hooks_amended ctxEx _ _ w5 rfl rfl rfl).2.2 "L" [5]

theorem latchRun_append (xs ys : List LatchEv) (c : Nat) :
    latchRun c (xs ++ ys) =
      (latchRun c xs).bind (fun c' => latchRun c' ys) := by
  induction xs generalizing c with
  | nil => simp [latchRun]
  | cons x rest ih =>
    cases x with
    | countUp => simp [latchRun, ih]
    | countDown =>
      cases hc : (c == 0) with
      | true => simp [latchRun, hc]
      | false => simp [latchRun, hc, ih]
    | waitReturn =>
      cases hc : (c == 0) with
      | true => simp [latchRun, hc, ih]
      | false => simp [latchRun, hc]

theorem latchRun_count (t : List LatchEv) (c c' : Nat)
    (h : latchRun c t = some c') :
    c + upCount t = c' + downCount t := by
  induction t generalizing c with
  | nil =>
    simp [latchRun] at h
    simp [upCount, downCount, h]
  | cons x rest ih =>
    cases x with
    | countUp =>
      rw [latchRun] at h
      have := ih (c + 1) h
      simp only [upCount, downCount]
      omega
    | countDown =>
      rw [latchRun] at h
      cases hc : (c == 0) with
      | true => rw [hc] at h; exact Option.noConfusion h
      | false =>
        rw [hc] at h
        have hcne : c ≠ 0 := by
          intro h0
          rw [h0] at hc
          exact Bool.noConfusion hc
        have := ih (c - 1) h
        simp only [upCount, downCount]
        omega
    | waitReturn =>
      rw [latchRun] at h
      cases hc : (c == 0) with
      | false => rw [hc] at h; exact Option.noConfusion h
      | true =>
        rw [hc] at h
        have hc0 : c = 0 := by simpa using hc
        have := ih 0 h
        simp only [upCount, downCount]
        omega

/-- C8: in every legal run of the tracker's counter latch, a waiter
(`Close` / `WaitForCustomizersToFinish`) returns only once the latch has
drained: at the point of return, every customizer call that entered has
completed (entries = completions). -/
theorem c8_latch_drains (t₁ t₂ : List LatchEv) (c : Nat)
    (h : latchRun 0 (t₁ ++ LatchEv.waitReturn :: t₂) = some c) :
    upCount t₁ = downCount t₁ := by
  rw [latchRun_append] at h
  cases h1 : latchRun 0 t₁ with
  | none => rw [h1] at h; exact Option.noConfusion h
  | some c₁ =>
    rw [h1] at h
    simp only [Option.bind] at h
    rw [latchRun] at h
    cases hc : (c₁ == 0) with
    | false => rw [hc] at h; exact Option.noConfusion h
    | true =>
      have hc0 : c₁ = 0 := by simpa using hc
      have hcount := latchRun_count t₁ 0 c₁ h1
      omega

/-- Witness for C8: one customizer call enters and completes, then the
waiter returns. -/
theorem c8_latch_drains_witness :
    upCount [LatchEv.countUp, LatchEv.countDown] =
      downCount [LatchEv.countUp, LatchEv.countDown] :=
  c8_latch_drains [LatchEv.countUp, LatchEv.countDown] [] 0 (by decide)

/-- Counterexample to C10: the claim's ordering clause fails — an
invalid (default-constructed) context is NOT ordered before a valid
one by `operator<`; `operator<` returns false whenever the left side is
invalid. -/
theorem c10_equality_cex :
    BundleContext.isValid ⟨none⟩ = false ∧
    BundleContext.isValid ctxEx = true ∧
    BundleContext.blt ⟨none⟩ ctxEx = false := ⟨rfl, rfl, rfl⟩

/-- C10 (amended): `operator==` is an equivalence relation identifying
all invalid contexts: two contexts are equal iff both are invalid or
both are valid and share the same pointee; `operator!=` is its exact
negation; and by `operator<` a VALID context is ordered strictly before
every invalid one (an invalid left-hand side is never less than
anything) — the opposite of the claimed direction. -/
theorem c10_equality_amended (l r s : BundleContext) :
    BundleContext.beq l l = true ∧
    BundleContext.beq l r = BundleContext.beq r l ∧
    (BundleContext.beq l r = true → BundleContext.beq r s = true →
      BundleContext.beq l s = true) ∧
    (l.isValid = false → r.isValid = false → BundleContext.beq l r = true) ∧
    (l.isValid = true → r.isValid = true →
      (BundleContext.beq l r = true ↔ l.d = r.d)) ∧
    (l.isValid = true → r.isValid = false → BundleContext.beq l r = false) ∧
    BundleContext.bne l r = !BundleContext.beq l r ∧
    (l.isValid = true → r.isValid = false → BundleContext.blt l r = true) ∧
    (l.isValid = false → BundleContext.blt l r = false) := by
  refine ⟨?_, ?_, ?_, ?_, ?_, ?_, rfl, ?_, ?_⟩
  · cases hl : l.isValid <;> simp [BundleContext.beq, hl]
  · cases hl : l.isValid <;> cases hr : r.isValid <;>
      simp [BundleContext.beq, hl, hr, eq_comm]
  · intro h1 h2
    cases hl : l.isValid <;> cases hr : r.isValid <;> cases hs : s.isValid <;>
      simp_all [BundleContext.beq]
  · intro hl hr
    simp [BundleContext.beq, hl, hr]
  · intro hl hr
    simp [BundleContext.beq, hl, hr]
  · intro hl hr
    simp [BundleContext.beq, hl, hr]
  · intro hl hr
    simp [BundleContext.blt, hl, hr]
  · intro hl
    simp [BundleContext.blt, hl]

/-- Witness for the amended C10: the example valid context is less than
the invalid one, never the other way around. -/
theorem c10_equality_amended_witness :
    BundleContext.blt ctxEx ⟨none⟩ = true ∧
    BundleContext.blt ⟨none⟩ ctxEx = false :=
  ⟨(c10_equality_amended ctxEx ⟨none⟩ ctxEx).2.2.2.2.2.2.2.1 rfl rfl,
   (c10_equality_amended ⟨none⟩ ctxEx ctxEx).2.2.2.2.2.2.2.2 rfl⟩
